import Mathlib

/-!
Shallow embedding of the geocaching puzzle control logic (main.ino).

The C source drives a six-state machine over a mutable `context` struct.
We embed the pure parts directly: C `int` becomes `Int` (with `Int.tmod`
and `Int.tdiv` for the truncating `%` and `/` of C), `uint8_t` password
digits become `Nat`, `double` becomes `Real`, and each handler becomes a
function `context -> context × HState`.  Handlers that read external
collaborators (the GPS serial stream in `fetch_handler`, the LED in
`satcon_handler`) take the external data as an explicit argument or
return the output explicitly.
-/

open Real

/-- Escape value for a blank display digit (0xFF in the source). -/
def BLANK_C : Int := 0xFF

/-- Escape value for a dash display digit (0xFE in the source). -/
def DASH_C : Int := 0xFE

/-- Debounce interval in milliseconds (BTN_DELAY in the source). -/
def BTN_DELAY : Nat := 100

/-- Earth radius in meters (EARTH_RADIUS in the source). -/
def EARTH_RADIUS : ℝ := 6371000

/-- A goal: a location (radians, as stored by fetch) plus a 4-digit password. -/
structure goal where
  lt : ℝ
  ln : ℝ
  passwd : Fin 4 → Nat
deriving Inhabited

/-- Debounce record for one button (the event pointer of the source is
modelled by the fixed wiring in update_buttons). -/
structure button where
  was_down : Bool
  pin : Nat
deriving Inhabited, DecidableEq

/-- The condition flags of the machine (struct state in the source). -/
structure state where
  satcon : Bool
  reached : Bool
  passwd : Bool
  fetched : Bool
  completed : Bool
  reset : Bool
  pos : Bool
  count : Bool
deriving Inhabited, DecidableEq

/-- The full mutable context passed between handlers. -/
structure context where
  input_pos : Int
  display_value : Fin 4 → Int
  distance : Int
  current_goal : Int
  final_goal : Int
  goals : Fin 10 → goal
  st : state
  btn : Fin 3 → button
deriving Inhabited

/-- The six states of the machine, named after their handlers. -/
inductive HState where
  | main
  | fetch
  | satcon
  | subgoal
  | next_goal
  | complete
deriving DecidableEq, Repr

/-- Total model of a C array read display_value[i] with an int index:
in-range indices read the array, anything else (undefined behavior in C,
never exercised: the cursor invariant keeps the index in 0..3) is sent
to index 0. -/
def idx4 (i : Int) : Fin 4 :=
  if h : 0 ≤ i ∧ i < 4 then ⟨i.toNat, by omega⟩ else 0

/-- Total model of the C array read goals[i]: out-of-range indices
(undefined behavior in C) yield the default goal. -/
def context.goalAt (ct : context) (i : Int) : goal :=
  if h : 0 ≤ i ∧ i < 10 then ct.goals ⟨i.toNat, by omega⟩ else default

/-- One iteration of the digit-extraction loop in set_distance: computes
digit = (distance % upper) / lower, latches dig_enable once a non-zero
digit is seen, and shows the digit or a blank accordingly. -/
def sd_step (distance : Int) (dig_enable : Bool) (upper lower : Int) :
    Int × Bool :=
  let digit := (distance.tmod upper).tdiv lower
  let dig_enable := if !dig_enable then decide (digit > 0) else dig_enable
  ((if dig_enable then digit else BLANK_C), dig_enable)

/-- set_distance from the source: renders ct.distance into the four
display digits, blanking leading zeros (the loop for i = 0..3 with
upper = 10000, 1000, 100, 10 and lower = 1000, 100, 10, 1 unrolled). -/
def set_distance (ct : context) : context :=
  let s0 := sd_step ct.distance false 10000 1000
  let s1 := sd_step ct.distance s0.2 1000 100
  let s2 := sd_step ct.distance s1.2 100 10
  let s3 := sd_step ct.distance s2.2 10 1
  { ct with display_value := ![s0.1, s1.1, s2.1, s3.1] }

/-- Decimal digit number i (0 = thousands, 3 = units) of a distance, as
the source loop extracts it: (d % upper) / lower with truncating C
arithmetic and upper, lower the powers of ten used at step i. -/
def decDigit (d : Int) : Fin 4 → Int :=
  ![(d.tmod 10000).tdiv 1000, (d.tmod 1000).tdiv 100, (d.tmod 100).tdiv 10,
    (d.tmod 10).tdiv 1]

/-- Display side effect at the top of main_handler: four dashes when no
goals are fetched, otherwise the rendered distance. -/
def main_pre (ct : context) : context :=
  if !ct.st.fetched then
    { ct with display_value := ![DASH_C, DASH_C, DASH_C, DASH_C] }
  else
    set_distance ct

/-- main_handler from the source: display side effect, then the branch
chain on (reset, satcon, reached). -/
def main_handler (ct : context) : context × HState :=
  let ct := main_pre ct
  if !ct.st.reset && ct.st.satcon && !ct.st.reached then
    (ct, HState.main)
  else if ct.st.reset then
    (ct, HState.fetch)
  else if ct.st.reached then
    ({ ct with
        display_value := ![DASH_C, BLANK_C, BLANK_C, BLANK_C]
        input_pos := 0 }, HState.subgoal)
  else
    (ct, HState.satcon)

/-- The cursor-move block of subgoal_handler (the if on st.pos): a dash
at the cursor is turned back into a blank, the cursor advances modulo 4,
and the new cursor position is marked with a dash. -/
def subgoal_edit_pos (ct : context) : context :=
  if ct.st.pos then
    let dv :=
      if ct.display_value (idx4 ct.input_pos) = DASH_C then
        Function.update ct.display_value (idx4 ct.input_pos) BLANK_C
      else ct.display_value
    let p := (ct.input_pos + 1).tmod 4
    { ct with display_value := Function.update dv (idx4 p) DASH_C, input_pos := p }
  else ct

/-- The increment block of subgoal_handler (the if on st.count): a dash
at the cursor becomes 0, anything else is incremented modulo 16. -/
def subgoal_edit_count (ct : context) : context :=
  if ct.st.count then
    let v :=
      if ct.display_value (idx4 ct.input_pos) = DASH_C then 0
      else (ct.display_value (idx4 ct.input_pos) + 1).tmod 0x10
    { ct with display_value := Function.update ct.display_value (idx4 ct.input_pos) v }
  else ct

/-- The number of display positions matching the password of the current
goal (the match_c loop of subgoal_handler). -/
def subgoal_match_c (ct : context) : Nat :=
  (List.finRange 4).countP
    (fun i => decide (ct.display_value i = ((ct.goalAt ct.current_goal).passwd i : Int)))

/-- subgoal_handler from the source: applies the cursor-move and
increment edges to the display, recomputes the password flag by counting
matching positions, then runs the branch chain. -/
def subgoal_handler (ct : context) : context × HState :=
  let ct := subgoal_edit_pos ct
  let ct := subgoal_edit_count ct
  let ct := { ct with st := { ct.st with passwd := decide (subgoal_match_c ct = 4) } }
  if !ct.st.reset && !ct.st.passwd && ct.st.satcon && ct.st.reached then
    (ct, HState.subgoal)
  else if ct.st.reset then (ct, HState.fetch)
  else if ct.st.passwd then (ct, HState.next_goal)
  else if !ct.st.satcon then (ct, HState.satcon)
  else (ct, HState.main)

/-- Degree to radian conversion (deg_to_rad in the source). -/
noncomputable def deg_to_rad (degree : ℝ) : ℝ := Real.pi * degree / 180

/-- fetch_handler from the source.  The GPS fix obtained (or not) inside
the serial polling window is the explicit argument: none when no
sentence decoded before the timeout, some (lat, lng) in degrees on a
fix.  On a fix it writes the single hard-coded goal at index 0. -/
noncomputable def fetch_handler (ct : context) (fix : Option (ℝ × ℝ)) :
    context × HState :=
  let ct := { ct with st := { ct.st with fetched := false } }
  let ct :=
    match fix with
    | none => ct
    | some (lat, lng) =>
      { ct with
        goals := Function.update ct.goals 0
          { lt := deg_to_rad lat, ln := deg_to_rad lng, passwd := fun i => i.val }
        current_goal := 0
        final_goal := 0
        st := { ct.st with fetched := true } }
  if ct.st.reset || !ct.st.fetched then (ct, HState.fetch)
  else (ct, HState.main)

/-- next_goal_handler from the source: latches the completed flag and
either finishes with four dashes or advances to the next goal. -/
def next_goal_handler (ct : context) : context × HState :=
  let ct := { ct with st := { ct.st with completed := decide (ct.current_goal = ct.final_goal) } }
  if ct.st.completed then
    ({ ct with display_value := ![DASH_C, DASH_C, DASH_C, DASH_C] }, HState.complete)
  else
    ({ ct with current_goal := ct.current_goal + 1 }, HState.main)

/-- complete_handler from the source: idles until reset. -/
def complete_handler (ct : context) : context × HState :=
  if !ct.st.reset then (ct, HState.complete)
  else ({ ct with st := { ct.st with completed := false } }, HState.fetch)

/-- satcon_handler from the source.  The returned Bool is the LED level
after the handler runs: the source writes HIGH unconditionally and then
LOW again when the satellite connection is back. -/
def satcon_handler (ct : context) : (context × HState) × Bool :=
  if !ct.st.satcon then ((ct, HState.satcon), true)
  else ((ct, HState.main), false)

/-- init_context from the source.  The goals array is left uninitialized
by the C code, so it is an arbitrary argument here. -/
def init_context (goals0 : Fin 10 → goal) : context :=
  { input_pos := 0
    display_value := fun _ => -1
    distance := -1
    current_goal := 0
    final_goal := -1
    goals := goals0
    st := ⟨false, false, false, false, false, false, false, false⟩
    btn := ![⟨false, 0⟩, ⟨false, 1⟩, ⟨false, 4⟩] }

/-- Modulus of the uint32_t millisecond clock: millis() and next_check
are 32-bit and wrap. -/
def UINT32_MOD : Nat := 4294967296

/-- uint32_t addition as performed by next_check = current_time +
BTN_DELAY in the source: the sum wraps modulo 2^32. -/
def u32add (a b : Nat) : Nat := (a + b) % UINT32_MOD

/-- The per-button body of the update_buttons loop: raw is the GPIO
level read by digitalRead (active low, so now_down is its negation);
next_check and current_time are uint32_t millisecond values, so the
next_check update uses wrapping addition.  Returns (emitted event, new
was_down, new shared next_check). -/
def update_button (was_down : Bool) (next_check current_time : Nat) (raw : Bool) :
    Bool × Bool × Nat :=
  let now_down := !raw
  if now_down != was_down then
    if current_time > next_check then
      (now_down, now_down, u32add current_time BTN_DELAY)
    else (false, was_down, next_check)
  else (false, was_down, next_check)

/-- Iteration i = 0 of the update_buttons loop. -/
def ub0 (was : Fin 3 → Bool) (next_check current_time : Nat) (raw : Fin 3 → Bool) :
    Bool × Bool × Nat :=
  update_button (was 0) next_check current_time (raw 0)

/-- Iteration i = 1 of the update_buttons loop (sees the next_check left
by iteration 0). -/
def ub1 (was : Fin 3 → Bool) (next_check current_time : Nat) (raw : Fin 3 → Bool) :
    Bool × Bool × Nat :=
  update_button (was 1) (ub0 was next_check current_time raw).2.2 current_time (raw 1)

/-- Iteration i = 2 of the update_buttons loop (sees the next_check left
by iteration 1). -/
def ub2 (was : Fin 3 → Bool) (next_check current_time : Nat) (raw : Fin 3 → Bool) :
    Bool × Bool × Nat :=
  update_button (was 2) (ub1 was next_check current_time raw).2.2 current_time (raw 2)

/-- update_buttons from the source: the three buttons processed in order
with the shared next_check timer threaded through.  Position 0 writes
the reset event, 1 the pos event, 2 the count event (the event-pointer
wiring of init_context).  Returns (events, new was_down levels, new
next_check). -/
def update_buttons (was : Fin 3 → Bool) (next_check current_time : Nat)
    (raw : Fin 3 → Bool) : (Fin 3 → Bool) × (Fin 3 → Bool) × Nat :=
  (![(ub0 was next_check current_time raw).1, (ub1 was next_check current_time raw).1,
      (ub2 was next_check current_time raw).1],
   ![(ub0 was next_check current_time raw).2.1, (ub1 was next_check current_time raw).2.1,
      (ub2 was next_check current_time raw).2.1],
   (ub2 was next_check current_time raw).2.2)

/-- Quadrant-aware arctangent as the C library atan2, on reals. -/
noncomputable def atan2 (y x : ℝ) : ℝ :=
  if 0 < x then Real.arctan (y / x)
  else if x < 0 ∧ 0 ≤ y then Real.arctan (y / x) + Real.pi
  else if x < 0 ∧ y < 0 then Real.arctan (y / x) - Real.pi
  else if x = 0 ∧ 0 < y then Real.pi / 2
  else if x = 0 ∧ y < 0 then -(Real.pi / 2)
  else 0

/-- The C round function on reals: round half away from zero, to an
integer. -/
noncomputable def c_round (x : ℝ) : ℤ :=
  if 0 ≤ x then ⌊x + 1 / 2⌋ else ⌈x - 1 / 2⌉

/-- The great-circle distance computation inlined in update_loc
(haversine formula): phi0, lambda0 are the current goal coordinates,
phi1, lambda1 the current location, all in radians; result in meters,
rounded. -/
noncomputable def update_loc_distance (phi0 lambda0 phi1 lambda1 : ℝ) : ℤ :=
  let d_phi := phi1 - phi0
  let d_lambda := lambda1 - lambda0
  let a := Real.sin (d_phi / 2) * Real.sin (d_phi / 2) +
    Real.sin (d_lambda / 2) * Real.sin (d_lambda / 2) * Real.cos phi0 * Real.cos phi1
  let c := 2 * atan2 (Real.sqrt a) (Real.sqrt (1 - a))
  c_round (c * EARTH_RADIUS)

/-! Concrete data and helper lemmas used by the verification theorems. -/

/-- A concrete context for instantiating theorems on closed inputs: the
display holds 0 1 2 3, every goal has password 0 1 2 3, all flags are
clear. -/
def ctxBase : context :=
  { input_pos := 0
    display_value := ![0, 1, 2, 3]
    distance := 0
    current_goal := 0
    final_goal := 0
    goals := fun _ => { lt := 0, ln := 0, passwd := fun j => j.val }
    st := ⟨false, false, false, false, false, false, false, false⟩
    btn := ![⟨false, 0⟩, ⟨false, 1⟩, ⟨false, 4⟩] }

theorem sd_step_eq (d : Int) (en : Bool) (U L : Int) :
    sd_step d en U L =
      ((if en || decide ((d.tmod U).tdiv L > 0) then (d.tmod U).tdiv L else BLANK_C),
        en || decide ((d.tmod U).tdiv L > 0)) := by
  cases en <;> simp [sd_step]

theorem dec_pos_of_nonneg (x : Int) (hx : 0 ≤ x) :
    decide (x > 0) = !decide (x = 0) := by
  by_cases h : x = 0
  · simp [h]
  · simp [h]; omega

/-- C1: for a distance in 0..9999, set_distance renders position i blank
exactly when every decimal digit up to and including position i is zero,
and renders the decimal digit itself from the first non-zero digit
onward.  (This is the claim amended at distance 0: an all-zero distance
renders all four positions blank, the units digit included, because the
enable latch in the source only trips on a digit strictly greater than
zero.) -/
theorem C1_set_distance_leading_blank (ct : context) (hd : 0 ≤ ct.distance)
    (hd2 : ct.distance ≤ 9999) :
    (set_distance ct).display_value 0 =
      (if decDigit ct.distance 0 = 0 then BLANK_C else decDigit ct.distance 0) ∧
    (set_distance ct).display_value 1 =
      (if decDigit ct.distance 0 = 0 ∧ decDigit ct.distance 1 = 0 then BLANK_C
       else decDigit ct.distance 1) ∧
    (set_distance ct).display_value 2 =
      (if decDigit ct.distance 0 = 0 ∧ decDigit ct.distance 1 = 0 ∧
          decDigit ct.distance 2 = 0 then BLANK_C
       else decDigit ct.distance 2) ∧
    (set_distance ct).display_value 3 =
      (if decDigit ct.distance 0 = 0 ∧ decDigit ct.distance 1 = 0 ∧
          decDigit ct.distance 2 = 0 ∧ decDigit ct.distance 3 = 0 then BLANK_C
       else decDigit ct.distance 3) := by
  have k0 : decDigit ct.distance 0 = (ct.distance.tmod 10000).tdiv 1000 := rfl
  have k1 : decDigit ct.distance 1 = (ct.distance.tmod 1000).tdiv 100 := rfl
  have k2 : decDigit ct.distance 2 = (ct.distance.tmod 100).tdiv 10 := rfl
  have k3 : decDigit ct.distance 3 = (ct.distance.tmod 10).tdiv 1 := rfl
  have n0 : 0 ≤ decDigit ct.distance 0 := by
    rw [k0]; exact Int.tdiv_nonneg (Int.tmod_nonneg _ hd) (by norm_num)
  have n1 : 0 ≤ decDigit ct.distance 1 := by
    rw [k1]; exact Int.tdiv_nonneg (Int.tmod_nonneg _ hd) (by norm_num)
  have n2 : 0 ≤ decDigit ct.distance 2 := by
    rw [k2]; exact Int.tdiv_nonneg (Int.tmod_nonneg _ hd) (by norm_num)
  have n3 : 0 ≤ decDigit ct.distance 3 := by
    rw [k3]; exact Int.tdiv_nonneg (Int.tmod_nonneg _ hd) (by norm_num)
  simp only [set_distance, sd_step_eq, Matrix.cons_val_zero, Matrix.cons_val_one,
    Matrix.head_cons, Matrix.cons_val_two, Matrix.tail_cons, Matrix.cons_val_three]
  rw [← k0, ← k1, ← k2, ← k3]
  rw [dec_pos_of_nonneg _ n0, dec_pos_of_nonneg _ n1, dec_pos_of_nonneg _ n2,
    dec_pos_of_nonneg _ n3]
  by_cases c0 : decDigit ct.distance 0 = 0 <;> by_cases c1 : decDigit ct.distance 1 = 0 <;>
    by_cases c2 : decDigit ct.distance 2 = 0 <;> by_cases c3 : decDigit ct.distance 3 = 0 <;>
      simp [c0, c1, c2, c3]

/-- C1 counterexample: at distance 0 the units position is rendered
blank, not 0, so format(0) is four blanks and not blank blank blank 0 as
the claim states. -/
theorem C1_format_zero_counterexample :
    (set_distance { ctxBase with distance := 0 }).display_value 3 = BLANK_C ∧
    BLANK_C ≠ (0 : Int) := by
  constructor
  · decide
  · decide

/-- C1 witness: the amended statement evaluated at distance 0 (all
blank) and at distance 42 (blank blank 4 2 scanning from thousands). -/
theorem C1_set_distance_witness :
    (set_distance { ctxBase with distance := 0 }).display_value 3 = BLANK_C ∧
    (set_distance { ctxBase with distance := 42 }).display_value 1 = BLANK_C ∧
    (set_distance { ctxBase with distance := 42 }).display_value 2 = 4 := by
  refine ⟨?_, ?_, ?_⟩
  · have h := (C1_set_distance_leading_blank { ctxBase with distance := 0 }
      (by decide) (by decide)).2.2.2
    rw [h]; decide
  · have h := (C1_set_distance_leading_blank { ctxBase with distance := 42 }
      (by decide) (by decide)).2.1
    rw [h]; decide
  · have h := (C1_set_distance_leading_blank { ctxBase with distance := 42 }
      (by decide) (by decide)).2.2.1
    rw [h]; decide

theorem set_distance_st (ct : context) : (set_distance ct).st = ct.st := rfl

theorem main_pre_st (ct : context) : (main_pre ct).st = ct.st := by
  unfold main_pre; split <;> rfl

theorem main_pre_input_pos (ct : context) : (main_pre ct).input_pos = ct.input_pos := by
  unfold main_pre; split <;> rfl

/-- C2: the MAIN handler first forces four dashes when no goals are
fetched (otherwise renders the distance), then transitions with the
priority reset, reached, satellite loss, idle. -/
theorem C2_main_handler_priority (ct : context) :
    (ct.st.fetched = false →
      (main_pre ct).display_value = ![DASH_C, DASH_C, DASH_C, DASH_C]) ∧
    (ct.st.fetched = true → main_pre ct = set_distance ct) ∧
    (ct.st.reset = true → main_handler ct = (main_pre ct, HState.fetch)) ∧
    (ct.st.reset = false → ct.st.reached = true →
      main_handler ct =
        ({ main_pre ct with
            display_value := ![DASH_C, BLANK_C, BLANK_C, BLANK_C]
            input_pos := 0 }, HState.subgoal)) ∧
    (ct.st.reset = false → ct.st.reached = false → ct.st.satcon = false →
      main_handler ct = (main_pre ct, HState.satcon)) ∧
    (ct.st.reset = false → ct.st.reached = false → ct.st.satcon = true →
      main_handler ct = (main_pre ct, HState.main)) := by
  refine ⟨?_, ?_, ?_, ?_, ?_, ?_⟩
  · intro h; simp [main_pre, h]
  · intro h; simp [main_pre, h]
  · intro h; simp [main_handler, main_pre_st, h]
  · intro h1 h2; simp [main_handler, main_pre_st, h1, h2]
  · intro h1 h2 h3; simp [main_handler, main_pre_st, h1, h2, h3]
  · intro h1 h2 h3; simp [main_handler, main_pre_st, h1, h2, h3]

/-- A fetched context with the reset edge pressed and a satellite
connection. -/
def ctxMainReset : context :=
  { ctxBase with st := ⟨true, false, false, true, false, true, false, false⟩ }

/-- A fetched context at a reached goal location, cursor away from 0. -/
def ctxMainReached : context :=
  { ctxBase with
      input_pos := 2
      st := ⟨true, true, false, true, false, false, false, false⟩ }

/-- C2 witness: with reset pressed in a fetched context the next state
is FETCH, and with the location reached (reset clear) the cursor is
reset and the next state is SUBGOAL. -/
theorem C2_main_handler_witness :
    (main_handler ctxMainReset).2 = HState.fetch ∧
    (main_handler ctxMainReached).1.input_pos = 0 ∧
    (main_handler ctxMainReached).2 = HState.subgoal := by
  refine ⟨?_, ?_, ?_⟩
  · have h := (C2_main_handler_priority ctxMainReset).2.2.1 rfl
    rw [h]
  · have h := (C2_main_handler_priority ctxMainReached).2.2.2.1 rfl rfl
    rw [h]
  · have h := (C2_main_handler_priority ctxMainReached).2.2.2.1 rfl rfl
    rw [h]

theorem subgoal_edit_pos_frame (ct : context) :
    (subgoal_edit_pos ct).st = ct.st ∧
    (subgoal_edit_pos ct).current_goal = ct.current_goal ∧
    (subgoal_edit_pos ct).goals = ct.goals ∧
    (subgoal_edit_pos ct).distance = ct.distance ∧
    (subgoal_edit_pos ct).final_goal = ct.final_goal ∧
    (subgoal_edit_pos ct).btn = ct.btn := by
  unfold subgoal_edit_pos; split <;> simp

theorem subgoal_edit_count_frame (ct : context) :
    (subgoal_edit_count ct).st = ct.st ∧
    (subgoal_edit_count ct).current_goal = ct.current_goal ∧
    (subgoal_edit_count ct).goals = ct.goals ∧
    (subgoal_edit_count ct).distance = ct.distance ∧
    (subgoal_edit_count ct).final_goal = ct.final_goal ∧
    (subgoal_edit_count ct).btn = ct.btn ∧
    (subgoal_edit_count ct).input_pos = ct.input_pos := by
  unfold subgoal_edit_count; split <;> simp

theorem goalAt_congr (ct1 ct2 : context) (h : ct1.goals = ct2.goals) (i : Int) :
    ct1.goalAt i = ct2.goalAt i := by
  unfold context.goalAt; rw [h]

theorem subgoal_match_c_eq_four (ct : context) :
    (subgoal_match_c ct = 4) ↔
      ∀ i : Fin 4, ct.display_value i = ((ct.goalAt ct.current_goal).passwd i : Int) := by
  unfold subgoal_match_c
  have base := List.countP_eq_length
    (p := fun i : Fin 4 =>
      decide (ct.display_value i = ((ct.goalAt ct.current_goal).passwd i : Int)))
    (l := List.finRange 4)
  constructor
  · intro h i
    have hall := base.mp (by simp [h])
    simpa using hall i (List.mem_finRange i)
  · intro h
    have hall := base.mpr (fun a _ => by simpa using h a)
    simpa using hall

theorem subgoal_handler_fst (ct : context) :
    (subgoal_handler ct).1 =
      { subgoal_edit_count (subgoal_edit_pos ct) with
        st := { (subgoal_edit_count (subgoal_edit_pos ct)).st with
          passwd := decide (subgoal_match_c (subgoal_edit_count (subgoal_edit_pos ct)) = 4) } } := by
  simp only [subgoal_handler]
  split_ifs <;> rfl

theorem subgoal_handler_passwd (ct : context) :
    (subgoal_handler ct).1.st.passwd =
      decide (subgoal_match_c (subgoal_edit_count (subgoal_edit_pos ct)) = 4) := by
  rw [subgoal_handler_fst]

theorem subgoal_handler_display (ct : context) :
    (subgoal_handler ct).1.display_value =
      (subgoal_edit_count (subgoal_edit_pos ct)).display_value := by
  rw [subgoal_handler_fst]

/-- C3: subgoal_handler ends with the password flag true exactly when
all four displayed symbols (after the edge edits) equal the password of
the current goal, and transitions with the priority reset, password
correct, satellite loss, still reached, else fall through to MAIN. -/
theorem C3_subgoal_handler_priority (ct : context) :
    ((subgoal_handler ct).1.st.passwd = true ↔
      ∀ i : Fin 4,
        (subgoal_handler ct).1.display_value i =
          ((ct.goalAt ct.current_goal).passwd i : Int)) ∧
    (ct.st.reset = true → (subgoal_handler ct).2 = HState.fetch) ∧
    (ct.st.reset = false → (subgoal_handler ct).1.st.passwd = true →
      (subgoal_handler ct).2 = HState.next_goal) ∧
    (ct.st.reset = false → (subgoal_handler ct).1.st.passwd = false →
      ct.st.satcon = false → (subgoal_handler ct).2 = HState.satcon) ∧
    (ct.st.reset = false → (subgoal_handler ct).1.st.passwd = false →
      ct.st.satcon = true → ct.st.reached = true →
      (subgoal_handler ct).2 = HState.subgoal) ∧
    (ct.st.reset = false → (subgoal_handler ct).1.st.passwd = false →
      ct.st.satcon = true → ct.st.reached = false →
      (subgoal_handler ct).2 = HState.main) := by
  have hst : (subgoal_edit_count (subgoal_edit_pos ct)).st = ct.st := by
    rw [(subgoal_edit_count_frame _).1, (subgoal_edit_pos_frame _).1]
  have hcg : (subgoal_edit_count (subgoal_edit_pos ct)).current_goal = ct.current_goal := by
    rw [(subgoal_edit_count_frame _).2.1, (subgoal_edit_pos_frame _).2.1]
  have hgs : (subgoal_edit_count (subgoal_edit_pos ct)).goals = ct.goals := by
    rw [(subgoal_edit_count_frame _).2.2.1, (subgoal_edit_pos_frame _).2.2.1]
  refine ⟨?_, ?_, ?_, ?_, ?_, ?_⟩
  · rw [subgoal_handler_passwd, subgoal_handler_display]
    have e1 : (subgoal_edit_count (subgoal_edit_pos ct)).goalAt
        ((subgoal_edit_count (subgoal_edit_pos ct)).current_goal) =
        ct.goalAt ct.current_goal := by
      rw [hcg, goalAt_congr _ ct hgs]
    have hiff := subgoal_match_c_eq_four (subgoal_edit_count (subgoal_edit_pos ct))
    rw [e1] at hiff
    simpa using hiff
  · intro hr
    simp only [subgoal_handler]
    simp [hst, hr]
  · intro hr hp
    rw [subgoal_handler_passwd] at hp
    simp only [subgoal_handler]
    simp [hst, hr, hp]
  · intro hr hp hs
    rw [subgoal_handler_passwd] at hp
    simp only [subgoal_handler]
    simp [hst, hr, hp, hs]
  · intro hr hp hs hl
    rw [subgoal_handler_passwd] at hp
    simp only [subgoal_handler]
    simp [hst, hr, hp, hs, hl]
  · intro hr hp hs hl
    rw [subgoal_handler_passwd] at hp
    simp only [subgoal_handler]
    simp [hst, hr, hp, hs, hl]

/-- A fetched context at a reached location whose display already equals
the password of the current goal. -/
def ctxSubgoalMatch : context :=
  { ctxBase with st := ⟨true, true, false, true, false, false, false, false⟩ }

/-- C3 witness: in a reached context whose display equals the code of
the current goal and with no reset edge, subgoal_handler moves to
NEXT_GOAL. -/
theorem C3_subgoal_handler_witness :
    (subgoal_handler ctxSubgoalMatch).2 = HState.next_goal :=
  (C3_subgoal_handler_priority ctxSubgoalMatch).2.2.1 rfl (by decide)

/-- A context like ctxSubgoalMatch but with the reset edge pressed in
the same iteration in which the display matches the code. -/
def ctxSubgoalReset : context :=
  { ctxBase with st := ⟨true, true, false, true, false, true, false, false⟩ }

/-- C4 counterexample: with the reset edge asserted, subgoal_handler
goes to FETCH even though all four displayed symbols equal the stored
code of the current goal, so a matching display does not always reach
NEXT_GOAL. -/
theorem C4_reset_preempts_code_counterexample :
    ctxSubgoalReset.display_value 0 =
      ((ctxSubgoalReset.goalAt ctxSubgoalReset.current_goal).passwd 0 : Int) ∧
    ctxSubgoalReset.display_value 1 =
      ((ctxSubgoalReset.goalAt ctxSubgoalReset.current_goal).passwd 1 : Int) ∧
    ctxSubgoalReset.display_value 2 =
      ((ctxSubgoalReset.goalAt ctxSubgoalReset.current_goal).passwd 2 : Int) ∧
    ctxSubgoalReset.display_value 3 =
      ((ctxSubgoalReset.goalAt ctxSubgoalReset.current_goal).passwd 3 : Int) ∧
    (subgoal_handler ctxSubgoalReset).1.st.passwd = true ∧
    (subgoal_handler ctxSubgoalReset).2 = HState.fetch ∧
    HState.fetch ≠ HState.next_goal := by
  decide

/-- C4: next_goal_handler latches all_completed as (current index =
final index), finishing with four dashes and COMPLETE on equality and
otherwise advancing the index and returning to MAIN; it is reached from
SUBGOAL whenever the display equals the stored code of the current goal
and, as the amendment adds, the reset edge is not asserted in the same
iteration. -/
theorem C4_next_goal_handler (ct : context) :
    ((next_goal_handler ct).1.st.completed = decide (ct.current_goal = ct.final_goal)) ∧
    (ct.current_goal = ct.final_goal →
      (next_goal_handler ct).2 = HState.complete ∧
      (next_goal_handler ct).1.display_value = ![DASH_C, DASH_C, DASH_C, DASH_C] ∧
      (next_goal_handler ct).1.current_goal = ct.current_goal) ∧
    (ct.current_goal ≠ ct.final_goal →
      (next_goal_handler ct).2 = HState.main ∧
      (next_goal_handler ct).1.current_goal = ct.current_goal + 1 ∧
      (next_goal_handler ct).1.display_value = ct.display_value) ∧
    (ct.st.reset = false →
      (∀ i : Fin 4,
        (subgoal_handler ct).1.display_value i =
          ((ct.goalAt ct.current_goal).passwd i : Int)) →
      (subgoal_handler ct).2 = HState.next_goal) := by
  refine ⟨?_, ?_, ?_, ?_⟩
  · by_cases h : ct.current_goal = ct.final_goal <;> simp [next_goal_handler, h]
  · intro h; simp [next_goal_handler, h]
  · intro h; simp [next_goal_handler, h]
  · intro hr hmatch
    have hst : (subgoal_edit_count (subgoal_edit_pos ct)).st = ct.st := by
      rw [(subgoal_edit_count_frame _).1, (subgoal_edit_pos_frame _).1]
    have hcg : (subgoal_edit_count (subgoal_edit_pos ct)).current_goal = ct.current_goal := by
      rw [(subgoal_edit_count_frame _).2.1, (subgoal_edit_pos_frame _).2.1]
    have hgs : (subgoal_edit_count (subgoal_edit_pos ct)).goals = ct.goals := by
      rw [(subgoal_edit_count_frame _).2.2.1, (subgoal_edit_pos_frame _).2.2.1]
    have e1 : (subgoal_edit_count (subgoal_edit_pos ct)).goalAt
        ((subgoal_edit_count (subgoal_edit_pos ct)).current_goal) =
        ct.goalAt ct.current_goal := by
      rw [hcg, goalAt_congr _ ct hgs]
    rw [subgoal_handler_display] at hmatch
    have hp : decide (subgoal_match_c (subgoal_edit_count (subgoal_edit_pos ct)) = 4) = true := by
      have hiff := subgoal_match_c_eq_four (subgoal_edit_count (subgoal_edit_pos ct))
      rw [e1] at hiff
      simpa using hiff.mpr hmatch
    simp only [subgoal_handler]
    simp [hst, hr, hp]

/-- C4 witness: at the final goal (index 0 of 0) the next state is
COMPLETE with four dashes; the display-matching link is exercised on the
matching context. -/
theorem C4_next_goal_handler_witness :
    (next_goal_handler ctxBase).2 = HState.complete ∧
    (next_goal_handler ctxBase).1.display_value = ![DASH_C, DASH_C, DASH_C, DASH_C] ∧
    (subgoal_handler ctxSubgoalMatch).2 = HState.next_goal := by
  refine ⟨((C4_next_goal_handler ctxBase).2.1 rfl).1,
    ((C4_next_goal_handler ctxBase).2.1 rfl).2.1,
    (C4_next_goal_handler ctxSubgoalMatch).2.2.2 rfl ?_⟩
  intro i
  fin_cases i <;> decide

/-- C5: the haversine distance of the source is symmetric in its two
coordinate pairs, and the distance from a coordinate to itself is
exactly 0 meters after rounding. -/
theorem C5_distance_symm_and_self_zero (lt0 ln0 lt1 ln1 : ℝ) :
    update_loc_distance lt0 ln0 lt1 ln1 = update_loc_distance lt1 ln1 lt0 ln0 ∧
    update_loc_distance lt0 ln0 lt0 ln0 = 0 := by
  constructor
  · have key : Real.sin ((lt0 - lt1) / 2) * Real.sin ((lt0 - lt1) / 2) +
        Real.sin ((ln0 - ln1) / 2) * Real.sin ((ln0 - ln1) / 2) * Real.cos lt1 * Real.cos lt0 =
        Real.sin ((lt1 - lt0) / 2) * Real.sin ((lt1 - lt0) / 2) +
        Real.sin ((ln1 - ln0) / 2) * Real.sin ((ln1 - ln0) / 2) * Real.cos lt0 * Real.cos lt1 := by
      rw [show (lt0 - lt1) / 2 = -((lt1 - lt0) / 2) by ring,
        show (ln0 - ln1) / 2 = -((ln1 - ln0) / 2) by ring, Real.sin_neg, Real.sin_neg]
      ring
    simp only [update_loc_distance]
    rw [key]
  · simp only [update_loc_distance, sub_self, zero_div, Real.sin_zero, mul_zero, zero_mul,
      add_zero, zero_add, mul_one, Real.sqrt_zero, sub_zero, Real.sqrt_one]
    have h1 : atan2 0 1 = 0 := by
      simp [atan2, Real.arctan_zero]
    rw [h1]
    simp only [mul_zero, zero_mul]
    have h2 : c_round 0 = 0 := by
      simp only [c_round, le_refl, if_pos, zero_add]
      norm_num
    simpa using h2

theorem update_button_accept (w : Bool) (nc t : Nat) (raw : Bool)
    (h : (update_button w nc t raw).1 = true) :
    (update_button w nc t raw).2.1 = true ∧ w = false ∧ raw = false := by
  simp only [update_button] at h ⊢
  split_ifs at h ⊢ <;> simp_all

theorem update_button_no_change (w : Bool) (nc t : Nat) (raw : Bool) (h : (!raw) = w) :
    (update_button w nc t raw).1 = false := by
  simp [update_button, h]

/-- C6: with the uint32_t wrap of the millisecond clock modelled
(millis values are physical times modulo 2^32), two level changes of
the same button seen by two debounce polls within one BTN_DELAY
interval emit at most one edge event; an emitted edge is not re-emitted
while the button stays at the same raw level in the next poll; and an
edge event fires only on a fresh unpressed-to-pressed transition
(active-low raw level), so the flag is cleared on every poll unless
freshly re-asserted.  At most one of two consecutive changes can be a
press, and only an accepted press emits an event, so the bound holds
even across a clock wrap where both changes are accepted. -/
theorem C6_debounce_edge_once (was raw1 raw2 : Fin 3 → Bool) (nc t1 t2 : Nat) (i : Fin 3) :
    (t1 ≤ t2 → t2 ≤ t1 + BTN_DELAY →
      (!(raw1 i)) ≠ was i →
      (!(raw2 i)) ≠ (update_buttons was nc (t1 % UINT32_MOD) raw1).2.1 i →
      ¬((update_buttons was nc (t1 % UINT32_MOD) raw1).1 i = true ∧
        (update_buttons (update_buttons was nc (t1 % UINT32_MOD) raw1).2.1
          (update_buttons was nc (t1 % UINT32_MOD) raw1).2.2
          (t2 % UINT32_MOD) raw2).1 i = true)) ∧
    ((update_buttons was nc (t1 % UINT32_MOD) raw1).1 i = true → raw2 i = raw1 i →
      (update_buttons (update_buttons was nc (t1 % UINT32_MOD) raw1).2.1
        (update_buttons was nc (t1 % UINT32_MOD) raw1).2.2
        (t2 % UINT32_MOD) raw2).1 i = false) ∧
    ((update_buttons was nc (t1 % UINT32_MOD) raw1).1 i = true →
      was i = false ∧ raw1 i = false) := by
  fin_cases i
  · refine ⟨fun ha hb hc hd hef => ?_, fun he hg => ?_, fun he => ?_⟩
    · obtain ⟨he, hf⟩ := hef
      replace he : (ub0 was nc (t1 % UINT32_MOD) raw1).1 = true := he
      obtain ⟨hW, -, -⟩ :=
        update_button_accept (was 0) nc (t1 % UINT32_MOD) (raw1 0) he
      obtain ⟨-, hw2, -⟩ :=
        update_button_accept
          ((update_buttons was nc (t1 % UINT32_MOD) raw1).2.1 0) (update_buttons was nc (t1 % UINT32_MOD) raw1).2.2
          (t2 % UINT32_MOD) (raw2 0) hf
      replace hW : (ub0 was nc (t1 % UINT32_MOD) raw1).2.1 = true := hW
      replace hw2 : (ub0 was nc (t1 % UINT32_MOD) raw1).2.1 = false := hw2
      rw [hW] at hw2
      simp at hw2
    · replace he : (ub0 was nc (t1 % UINT32_MOD) raw1).1 = true := he
      replace hg : raw2 0 = raw1 0 := hg
      obtain ⟨hW, hw, hraw⟩ :=
        update_button_accept (was 0) nc (t1 % UINT32_MOD) (raw1 0) he
      show (ub0 (update_buttons was nc (t1 % UINT32_MOD) raw1).2.1
        (update_buttons was nc (t1 % UINT32_MOD) raw1).2.2 (t2 % UINT32_MOD) raw2).1 = false
      apply update_button_no_change
      show (!(raw2 0)) = (update_buttons was nc (t1 % UINT32_MOD) raw1).2.1 0
      rw [hg, hraw]
      exact hW.symm
    · replace he : (ub0 was nc (t1 % UINT32_MOD) raw1).1 = true := he
      obtain ⟨hW, hw, hraw⟩ :=
        update_button_accept (was 0) nc (t1 % UINT32_MOD) (raw1 0) he
      exact ⟨hw, hraw⟩
  · refine ⟨fun ha hb hc hd hef => ?_, fun he hg => ?_, fun he => ?_⟩
    · obtain ⟨he, hf⟩ := hef
      replace he : (ub1 was nc (t1 % UINT32_MOD) raw1).1 = true := he
      obtain ⟨hW, -, -⟩ :=
        update_button_accept (was 1) (ub0 was nc (t1 % UINT32_MOD) raw1).2.2 (t1 % UINT32_MOD) (raw1 1) he
      obtain ⟨-, hw2, -⟩ :=
        update_button_accept
          ((update_buttons was nc (t1 % UINT32_MOD) raw1).2.1 1) (ub0 (update_buttons was nc (t1 % UINT32_MOD) raw1).2.1 (update_buttons was nc (t1 % UINT32_MOD) raw1).2.2 (t2 % UINT32_MOD) raw2).2.2
          (t2 % UINT32_MOD) (raw2 1) hf
      replace hW : (ub1 was nc (t1 % UINT32_MOD) raw1).2.1 = true := hW
      replace hw2 : (ub1 was nc (t1 % UINT32_MOD) raw1).2.1 = false := hw2
      rw [hW] at hw2
      simp at hw2
    · replace he : (ub1 was nc (t1 % UINT32_MOD) raw1).1 = true := he
      replace hg : raw2 1 = raw1 1 := hg
      obtain ⟨hW, hw, hraw⟩ :=
        update_button_accept (was 1) (ub0 was nc (t1 % UINT32_MOD) raw1).2.2 (t1 % UINT32_MOD) (raw1 1) he
      show (ub1 (update_buttons was nc (t1 % UINT32_MOD) raw1).2.1
        (update_buttons was nc (t1 % UINT32_MOD) raw1).2.2 (t2 % UINT32_MOD) raw2).1 = false
      apply update_button_no_change
      show (!(raw2 1)) = (update_buttons was nc (t1 % UINT32_MOD) raw1).2.1 1
      rw [hg, hraw]
      exact hW.symm
    · replace he : (ub1 was nc (t1 % UINT32_MOD) raw1).1 = true := he
      obtain ⟨hW, hw, hraw⟩ :=
        update_button_accept (was 1) (ub0 was nc (t1 % UINT32_MOD) raw1).2.2 (t1 % UINT32_MOD) (raw1 1) he
      exact ⟨hw, hraw⟩
  · refine ⟨fun ha hb hc hd hef => ?_, fun he hg => ?_, fun he => ?_⟩
    · obtain ⟨he, hf⟩ := hef
      replace he : (ub2 was nc (t1 % UINT32_MOD) raw1).1 = true := he
      obtain ⟨hW, -, -⟩ :=
        update_button_accept (was 2) (ub1 was nc (t1 % UINT32_MOD) raw1).2.2 (t1 % UINT32_MOD) (raw1 2) he
      obtain ⟨-, hw2, -⟩ :=
        update_button_accept
          ((update_buttons was nc (t1 % UINT32_MOD) raw1).2.1 2) (ub1 (update_buttons was nc (t1 % UINT32_MOD) raw1).2.1 (update_buttons was nc (t1 % UINT32_MOD) raw1).2.2 (t2 % UINT32_MOD) raw2).2.2
          (t2 % UINT32_MOD) (raw2 2) hf
      replace hW : (ub2 was nc (t1 % UINT32_MOD) raw1).2.1 = true := hW
      replace hw2 : (ub2 was nc (t1 % UINT32_MOD) raw1).2.1 = false := hw2
      rw [hW] at hw2
      simp at hw2
    · replace he : (ub2 was nc (t1 % UINT32_MOD) raw1).1 = true := he
      replace hg : raw2 2 = raw1 2 := hg
      obtain ⟨hW, hw, hraw⟩ :=
        update_button_accept (was 2) (ub1 was nc (t1 % UINT32_MOD) raw1).2.2 (t1 % UINT32_MOD) (raw1 2) he
      show (ub2 (update_buttons was nc (t1 % UINT32_MOD) raw1).2.1
        (update_buttons was nc (t1 % UINT32_MOD) raw1).2.2 (t2 % UINT32_MOD) raw2).1 = false
      apply update_button_no_change
      show (!(raw2 2)) = (update_buttons was nc (t1 % UINT32_MOD) raw1).2.1 2
      rw [hg, hraw]
      exact hW.symm
    · replace he : (ub2 was nc (t1 % UINT32_MOD) raw1).1 = true := he
      obtain ⟨hW, hw, hraw⟩ :=
        update_button_accept (was 2) (ub1 was nc (t1 % UINT32_MOD) raw1).2.2 (t1 % UINT32_MOD) (raw1 2) he
      exact ⟨hw, hraw⟩

/-- Initial button levels for the debounce witness: nothing pressed. -/
def wasW : Fin 3 → Bool := ![false, false, false]

/-- Raw levels at the first poll: button 0 pressed (active low). -/
def raw1W : Fin 3 → Bool := ![false, true, true]

/-- Raw levels at the second poll: button 0 released again. -/
def raw2W : Fin 3 → Bool := ![true, true, true]

/-- C6 witness: with button 0 pressed at t = 50 and the opposite change
arriving at t = 120 (inside the 100 ms window), at most one event fires;
holding the button re-emits nothing; and the emitted event was a fresh
press edge. -/
theorem C6_debounce_edge_once_witness :
    ¬((update_buttons wasW 0 50 raw1W).1 0 = true ∧
      (update_buttons (update_buttons wasW 0 50 raw1W).2.1
        (update_buttons wasW 0 50 raw1W).2.2 120 raw2W).1 0 = true) ∧
    (update_buttons (update_buttons wasW 0 50 raw1W).2.1
      (update_buttons wasW 0 50 raw1W).2.2 120 raw1W).1 0 = false ∧
    (wasW 0 = false ∧ raw1W 0 = false) := by
  refine ⟨(C6_debounce_edge_once wasW raw1W raw2W 0 50 120 0).1
      (by decide) (by decide) (by decide) (by decide),
    (C6_debounce_edge_once wasW raw1W raw1W 0 50 120 0).2.1 (by decide) (by decide),
    (C6_debounce_edge_once wasW raw1W raw2W 0 50 120 0).2.2 (by decide)⟩

/-- C7 counterexample: fetch_handler on one and the same context yields
FETCH when the polling window produced no fix but MAIN when it produced
one, so its result is not a function of the Context alone. -/
theorem C7_fetch_world_dependent_counterexample :
    (fetch_handler ctxBase none).2 = HState.fetch ∧
    (fetch_handler ctxBase (some (0, 0))).2 = HState.main ∧
    HState.fetch ≠ HState.main := by
  refine ⟨rfl, rfl, by decide⟩

/-- C7: every state handler other than FETCH is deterministic in the
Context alone, and FETCH is deterministic in the Context together with
the outcome of its goal-fetch attempt (the amendment: the source polls
the GPS serial line inside the FETCH body, so that outcome is an
additional input there). -/
theorem C7_handlers_deterministic (ct1 ct2 : context) (fix : Option (ℝ × ℝ))
    (h : ct1 = ct2) :
    main_handler ct1 = main_handler ct2 ∧
    subgoal_handler ct1 = subgoal_handler ct2 ∧
    next_goal_handler ct1 = next_goal_handler ct2 ∧
    complete_handler ct1 = complete_handler ct2 ∧
    satcon_handler ct1 = satcon_handler ct2 ∧
    fetch_handler ct1 fix = fetch_handler ct2 fix := by
  subst h
  exact ⟨rfl, rfl, rfl, rfl, rfl, rfl⟩

/-- C7 witness: determinism instantiated at the concrete base context. -/
theorem C7_handlers_deterministic_witness :
    main_handler ctxBase = main_handler ctxBase ∧
    fetch_handler ctxBase none = fetch_handler ctxBase none :=
  ⟨(C7_handlers_deterministic ctxBase ctxBase none rfl).1,
    (C7_handlers_deterministic ctxBase ctxBase none rfl).2.2.2.2.2⟩

/-- C10: satcon_handler leaves the whole context unchanged, and
complete_handler changes nothing except clearing the completed flag
when the reset edge fires. -/
theorem C10_satcon_complete_frame (ct : context) :
    (satcon_handler ct).1.1 = ct ∧
    (complete_handler ct).1.display_value = ct.display_value ∧
    (complete_handler ct).1.input_pos = ct.input_pos ∧
    (complete_handler ct).1.distance = ct.distance ∧
    (complete_handler ct).1.current_goal = ct.current_goal ∧
    (complete_handler ct).1.final_goal = ct.final_goal ∧
    (complete_handler ct).1.goals = ct.goals ∧
    (complete_handler ct).1.btn = ct.btn ∧
    (complete_handler ct).1.st.satcon = ct.st.satcon ∧
    (complete_handler ct).1.st.reached = ct.st.reached ∧
    (complete_handler ct).1.st.passwd = ct.st.passwd ∧
    (complete_handler ct).1.st.fetched = ct.st.fetched ∧
    (complete_handler ct).1.st.reset = ct.st.reset ∧
    (complete_handler ct).1.st.pos = ct.st.pos ∧
    (complete_handler ct).1.st.count = ct.st.count ∧
    (complete_handler ct).1.st.completed =
      (if ct.st.reset then false else ct.st.completed) := by
  cases hr : ct.st.reset <;> cases hs : ct.st.satcon <;>
    simp [satcon_handler, complete_handler, hr, hs]

/-- C8: the cursor position starts at 0 and every state handler keeps it
in the range 0..3 (MAIN resets it, SUBGOAL advances it modulo 4, the
rest leave it alone). -/
theorem C8_input_pos_in_range (ct : context) (g0 : Fin 10 → goal)
    (fix : Option (ℝ × ℝ)) (h : 0 ≤ ct.input_pos ∧ ct.input_pos ≤ 3) :
    (init_context g0).input_pos = 0 ∧
    (0 ≤ (main_handler ct).1.input_pos ∧ (main_handler ct).1.input_pos ≤ 3) ∧
    (0 ≤ (subgoal_handler ct).1.input_pos ∧ (subgoal_handler ct).1.input_pos ≤ 3) ∧
    (0 ≤ (fetch_handler ct fix).1.input_pos ∧ (fetch_handler ct fix).1.input_pos ≤ 3) ∧
    (0 ≤ (next_goal_handler ct).1.input_pos ∧ (next_goal_handler ct).1.input_pos ≤ 3) ∧
    (0 ≤ (complete_handler ct).1.input_pos ∧ (complete_handler ct).1.input_pos ≤ 3) ∧
    (0 ≤ (satcon_handler ct).1.1.input_pos ∧ (satcon_handler ct).1.1.input_pos ≤ 3) := by
  refine ⟨rfl, ?_, ?_, ?_, ?_, ?_, ?_⟩
  · simp only [main_handler]
    split_ifs <;> simp [main_pre_input_pos] <;> omega
  · rw [subgoal_handler_fst]
    show 0 ≤ (subgoal_edit_count (subgoal_edit_pos ct)).input_pos ∧
      (subgoal_edit_count (subgoal_edit_pos ct)).input_pos ≤ 3
    rw [(subgoal_edit_count_frame _).2.2.2.2.2.2]
    unfold subgoal_edit_pos
    split
    · show 0 ≤ (ct.input_pos + 1).tmod 4 ∧ (ct.input_pos + 1).tmod 4 ≤ 3
      constructor
      · exact Int.tmod_nonneg 4 (by omega)
      · have := Int.tmod_lt_of_pos (ct.input_pos + 1) (show (0 : Int) < 4 by norm_num)
        omega
    · exact ⟨h.1, h.2⟩
  · rcases fix with - | ⟨lat, lng⟩ <;>
      · simp only [fetch_handler]
        split_ifs <;> simpa using h
  · simp only [next_goal_handler]
    split_ifs <;> simpa using h
  · simp only [complete_handler]
    split_ifs <;> simpa using h
  · simp only [satcon_handler]
    split_ifs <;> simpa using h

/-- C8 witness: the range invariant instantiated at the base context. -/
theorem C8_input_pos_in_range_witness :
    0 ≤ (main_handler ctxBase).1.input_pos ∧ (main_handler ctxBase).1.input_pos ≤ 3 :=
  (C8_input_pos_in_range ctxBase ctxBase.goals none (by decide)).2.1

/-- C9: when only the increment edge fires, a blank at the cursor
becomes the digit 0, exactly as a dash does, because (0xFF + 1) mod 16
is 0; so incrementing a blank cursor position stays inside the 0..15
symbol range. -/
theorem C9_increment_blank_is_zero (ct : context)
    (hc : ct.st.count = true) (hp : ct.st.pos = false)
    (h : 0 ≤ ct.input_pos ∧ ct.input_pos < 4) :
    (ct.display_value (idx4 ct.input_pos) = BLANK_C →
      (subgoal_handler ct).1.display_value (idx4 ct.input_pos) = 0) ∧
    (ct.display_value (idx4 ct.input_pos) = DASH_C →
      (subgoal_handler ct).1.display_value (idx4 ct.input_pos) = 0) ∧
    (BLANK_C + 1).tmod 0x10 = 0 := by
  have hep : subgoal_edit_pos ct = ct := by
    unfold subgoal_edit_pos
    rw [hp]
    rfl
  refine ⟨fun hb => ?_, fun hd => ?_, by decide⟩
  · rw [subgoal_handler_display, hep]
    unfold subgoal_edit_count
    rw [hc]
    simp [hb, Function.update_same]
    decide
  · rw [subgoal_handler_display, hep]
    simp [subgoal_edit_count, hc, hd, Function.update_same]

/-- A context in input mode with the increment edge pending and a blank
at the cursor. -/
def ctxBlankAtCursor : context :=
  { ctxBase with
      display_value := ![BLANK_C, 1, 2, 3]
      st := ⟨true, true, false, true, false, false, false, true⟩ }

/-- C9 witness: incrementing the blank at cursor position 0 yields the
digit 0. -/
theorem C9_increment_blank_is_zero_witness :
    (subgoal_handler ctxBlankAtCursor).1.display_value
      (idx4 ctxBlankAtCursor.input_pos) = 0 :=
  (C9_increment_blank_is_zero ctxBlankAtCursor rfl rfl (by decide)).1 (by decide)
